import Mathlib

/-!
# Verification of the advocate search/pagination/ranking core

Shallow embedding of the search query engine of the Solace advocate
directory: the `AdvocatesService` (pagination validation, result
transformation, secondary sort, response assembly) and the
`AdvocateRepository` (strategy selection, query construction, paired
page/count queries).

The relational store is modelled as a `Store`: a list of rows together
with an abstract full-text matching primitive (`search_vector @@
to_tsquery`) and an abstract relevance score (`ts_rank`, used only for
ordering, so modelled as an integer-valued score).  SQL `ORDER BY` and
JavaScript `Array.prototype.sort` are modelled by `List.insertionSort`
(a stable sort); `LIMIT`/`OFFSET` by `take`/`drop`.  JavaScript strings
are Lean `String`s; `String.prototype.trim` and `split(' ')` are
modelled explicitly over the character list so that every definition is
executable by kernel reduction.
-/

namespace Solace

/-- JavaScript `String.prototype.trim`: drop whitespace from both ends
of the character list. -/
def jsTrim (s : String) : String :=
  ⟨(((s.data.dropWhile Char.isWhitespace).reverse.dropWhile Char.isWhitespace).reverse)⟩

/-- JavaScript `String.prototype.split(' ')` over a character list:
split at every single space character, keeping empty fragments. -/
def splitSpace : List Char → List (List Char)
  | [] => [[]]
  | c :: cs =>
    match splitSpace cs with
    | [] => [[]]
    | w :: ws => if c = ' ' then [] :: w :: ws else (c :: w) :: ws

/-- The tsquery builder of `AdvocateRepository.searchAdvocates` /
`getAdvocatesBySpecialties`:
`search.trim().split(' ').map((word, index, arr) =>
   index === arr.length - 1 ? word + ":*" : word).join(' & ')`. -/
def buildSearchQuery (search : String) : String :=
  let arr := splitSpace (jsTrim search).data
  let marked := arr.enum.map
    (fun p => if p.1 = arr.length - 1 then p.2 ++ [':', '*'] else p.2)
  ⟨List.intercalate [' ', '&', ' '] marked⟩

/-- Append the prefix-match marker `:*` to the last term of a word list. -/
def markLast : List (List Char) → List (List Char)
  | [] => []
  | [w] => [w ++ [':', '*']]
  | w :: ws => w :: markLast ws

/-- Modelled from the spec (claim wording): split the trimmed input on
whitespace into words (non-empty tokens), append the prefix marker to
the last word only, join with a logical AND. -/
def specQueryBuilder (search : String) : String :=
  let words := ((jsTrim search).data.splitOnP Char.isWhitespace).filter
    (fun w => !w.isEmpty)
  ⟨List.intercalate [' ', '&', ' '] (markLast words)⟩

/-- A raw database row (`AdvocateDB`).  The ranked-search SELECT adds a
`rank` column (`ts_rank(...) as rank`) that the plain-listing SELECT
does not, so `rank` is optional; the `payload` jsonb column (aliased
`specialties` in every SELECT) may be null.  Timestamps and the
relevance score are abstracted to integers (only equality resp.
ordering of scores is ever used). -/
structure AdvocateDB where
  id : Int
  first_name : String
  last_name : String
  city : String
  degree : String
  specialties : Option (List String)
  years_of_experience : Int
  phone_number : Int
  created_at : Option Int
  rank : Option Int
deriving DecidableEq

/-- The canonical `Advocate` record returned to callers. -/
structure Advocate where
  id : Int
  firstName : String
  lastName : String
  city : String
  degree : String
  specialties : List String
  yearsOfExperience : Int
  phoneNumber : Int
  createdAt : Option Int
deriving DecidableEq

/-- Result of one repository call: a page of rows plus the total count. -/
structure AdvocateSearchResult where
  advocates : List AdvocateDB
  totalCount : Nat
deriving DecidableEq

/-- The relational store, consumed as a capability: the rows plus the
full-text primitives.  `matchesQuery q row` models
`search_vector @@ to_tsquery('english', q)`; `rank q row` models
`ts_rank(search_vector, to_tsquery('english', q))`. -/
structure Store where
  rows : List AdvocateDB
  matchesQuery : String → AdvocateDB → Bool
  rank : String → AdvocateDB → Int

/-- SQL `LIMIT .. OFFSET ..` over an ordered row list. -/
def paginate (limit offset : Int) (l : List α) : List α :=
  (l.drop offset.toNat).take limit.toNat

/-- `ORDER BY id` (ascending identity). -/
def idLe (a b : AdvocateDB) : Prop := a.id ≤ b.id

instance : DecidableRel idLe := fun a b => inferInstanceAs (Decidable (a.id ≤ b.id))

instance : IsTotal AdvocateDB idLe := ⟨fun a b => Int.le_total a.id b.id⟩

instance : IsTrans AdvocateDB idLe := ⟨fun _ _ _ h h' => Int.le_trans h h'⟩

/-- `ORDER BY rank DESC` (descending relevance score). -/
def rankGe (store : Store) (q : String) (a b : AdvocateDB) : Prop :=
  store.rank q b ≤ store.rank q a

instance (store : Store) (q : String) : DecidableRel (rankGe store q) :=
  fun a b => inferInstanceAs (Decidable (store.rank q b ≤ store.rank q a))

instance (store : Store) (q : String) : IsTotal AdvocateDB (rankGe store q) :=
  ⟨fun a b => Int.le_total (store.rank q b) (store.rank q a)⟩

instance (store : Store) (q : String) : IsTrans AdvocateDB (rankGe store q) :=
  ⟨fun _ _ _ h h' => Int.le_trans h' h⟩

/-- `payload::jsonb ?| ARRAY[tags]`: the row's tag array contains at
least one of the requested tags (a null payload matches nothing). -/
def tagMatch (tags : List String) (r : AdvocateDB) : Bool :=
  match r.specialties with
  | none => false
  | some sp => tags.any (fun t => sp.contains t)

namespace AdvocateRepository

/-- WHERE clause of the page query of `searchAdvocates`
(`WHERE search_vector @@ to_tsquery('english', q)`). -/
def searchWherePage (store : Store) (q : String) (r : AdvocateDB) : Bool :=
  store.matchesQuery q r

/-- WHERE clause of the count query of `searchAdvocates` (written
separately in the source, as a second SQL string). -/
def searchWhereCount (store : Store) (q : String) (r : AdvocateDB) : Bool :=
  store.matchesQuery q r

/-- WHERE clause of the page query of the search+tags branch of
`getAdvocatesBySpecialties`. -/
def specSearchWherePage (store : Store) (q : String) (tags : List String)
    (r : AdvocateDB) : Bool :=
  store.matchesQuery q r && tagMatch tags r

/-- WHERE clause of the count query of the search+tags branch
(duplicated in the source). -/
def specSearchWhereCount (store : Store) (q : String) (tags : List String)
    (r : AdvocateDB) : Bool :=
  store.matchesQuery q r && tagMatch tags r

/-- WHERE clause of the page query of the tags-only branch. -/
def specOnlyWherePage (tags : List String) (r : AdvocateDB) : Bool :=
  tagMatch tags r

/-- WHERE clause of the count query of the tags-only branch
(duplicated in the source). -/
def specOnlyWhereCount (tags : List String) (r : AdvocateDB) : Bool :=
  tagMatch tags r

/-- `AdvocateRepository.searchAdvocates`: ranked full-text search,
`ORDER BY rank DESC LIMIT .. OFFSET ..`, plus a separate count query. -/
def searchAdvocates (store : Store) (search : String) (limit offset : Int) :
    AdvocateSearchResult :=
  let searchQuery := buildSearchQuery search
  let searchResults := paginate limit offset
    (List.insertionSort (rankGe store searchQuery)
      (store.rows.filter (searchWherePage store searchQuery)))
  let totalCount := (store.rows.filter (searchWhereCount store searchQuery)).length
  { advocates := searchResults, totalCount := totalCount }

/-- `AdvocateRepository.getAllAdvocates`: plain listing,
`ORDER BY id LIMIT .. OFFSET ..`, plus `COUNT(*)` over the table. -/
def getAllAdvocates (store : Store) (limit offset : Int) : AdvocateSearchResult :=
  { advocates := paginate limit offset (List.insertionSort idLe store.rows),
    totalCount := store.rows.length }

/-- `AdvocateRepository.getAdvocatesBySpecialties`: if the (already
trimmed) search term is non-blank, ranked search AND tag membership
ordered by rank descending; otherwise tag-filtered listing ordered by
id.  Each branch issues its own count query with a duplicated WHERE. -/
def getAdvocatesBySpecialties (store : Store) (tags : List String)
    (search : String) (limit offset : Int) : AdvocateSearchResult :=
  if jsTrim search ≠ "" then
    let searchQuery := buildSearchQuery search
    { advocates := paginate limit offset
        (List.insertionSort (rankGe store searchQuery)
          (store.rows.filter (specSearchWherePage store searchQuery tags))),
      totalCount := (store.rows.filter (specSearchWhereCount store searchQuery tags)).length }
  else
    { advocates := paginate limit offset
        (List.insertionSort idLe (store.rows.filter (specOnlyWherePage tags))),
      totalCount := (store.rows.filter (specOnlyWhereCount tags)).length }

end AdvocateRepository

/-- The `sortBy` enum of `SearchAdvocatesDto`. -/
inductive SortBy
  | relevance
  | name
  | experience
  | city
deriving DecidableEq

/-- The `sortOrder` enum of `SearchAdvocatesDto`. -/
inductive SortOrder
  | asc
  | desc
deriving DecidableEq

/-- The query DTO as the service receives it (all fields optional on
the wire; enum validation happens before the service, out of scope). -/
structure SearchAdvocatesDto where
  search : Option String
  specialties : Option (List String)
  page : Option Int
  limit : Option Int
  sortBy : Option SortBy
  sortOrder : Option SortOrder
deriving DecidableEq

/-- Response pagination metadata. -/
structure PaginationInfo where
  page : Int
  limit : Int
  totalCount : Nat
  totalPages : Int
deriving DecidableEq

/-- The response contract: data page plus pagination metadata. -/
structure SearchAdvocatesResponse where
  data : List Advocate
  pagination : PaginationInfo
deriving DecidableEq

/-- Result of `validatePagination`. -/
structure ValidPagination where
  page : Int
  limit : Int
  offset : Int
deriving DecidableEq

/-- JavaScript `x || d` on an optional number: the default replaces an
absent (`undefined`) and a zero (falsy) value alike. -/
def jsOrInt (v : Option Int) (d : Int) : Int :=
  match v with
  | none => d
  | some x => if x = 0 then d else x

namespace AdvocatesService

/-- `AdvocatesService.transformAdvocate`: map a raw row of either shape
to the canonical record; `specialties || []` defaults a null tag blob
to the empty list (a non-empty and an empty JS array are both truthy,
so a present value is kept as is). -/
def transformAdvocate (dbAdvocate : AdvocateDB) : Advocate :=
  { id := dbAdvocate.id,
    firstName := dbAdvocate.first_name,
    lastName := dbAdvocate.last_name,
    city := dbAdvocate.city,
    degree := dbAdvocate.degree,
    specialties := dbAdvocate.specialties.getD [],
    yearsOfExperience := dbAdvocate.years_of_experience,
    phoneNumber := dbAdvocate.phone_number,
    createdAt := dbAdvocate.created_at }

/-- `AdvocatesService.calculatePagination`:
`totalPages = Math.ceil(totalCount / limit)` (exact real division of
the two non-negative integers), echoing the other three fields. -/
def calculatePagination (page limit : Int) (totalCount : Nat) : PaginationInfo :=
  { page := page,
    limit := limit,
    totalCount := totalCount,
    totalPages := ⌈(totalCount : ℚ) / (limit : ℚ)⌉ }

/-- `AdvocatesService.validatePagination`:
`validPage = Math.max(1, page || DEFAULT_PAGE)`,
`validLimit = Math.min(MAX_LIMIT, Math.max(1, limit || DEFAULT_LIMIT))`,
`offset = (validPage - 1) * validLimit`, with `DEFAULT_PAGE = 1`,
`DEFAULT_LIMIT = 50`, `MAX_LIMIT = 100`. -/
def validatePagination (page limit : Option Int) : ValidPagination :=
  let validPage := max 1 (jsOrInt page 1)
  let validLimit := min 100 (max 1 (jsOrInt limit 50))
  { page := validPage, limit := validLimit, offset := (validPage - 1) * validLimit }

/-- Sign model of `String.prototype.localeCompare` (lexicographic
collation): negative, zero or positive. -/
def strCompare (a b : String) : Int :=
  if a < b then -1 else if b < a then 1 else 0

/-- The secondary-sort comparator body: `order * field comparison`,
where `order = -1` for descending and `1` otherwise.  The `relevance`
arm is the switch's unreachable `default: return 0` (the sort is only
entered when `sortBy !== 'relevance'`). -/
def advocateCompare (sb : SortBy) (ord : Int) (a b : Advocate) : Int :=
  match sb with
  | SortBy.name => ord * strCompare a.lastName b.lastName
  | SortBy.experience => ord * (a.yearsOfExperience - b.yearsOfExperience)
  | SortBy.city => ord * strCompare a.city b.city
  | SortBy.relevance => 0

/-- `request.sortOrder === 'desc' ? -1 : 1`. -/
def sortOrderFactor (o : Option SortOrder) : Int :=
  if o = some SortOrder.desc then -1 else 1

/-- The ordering induced by the comparator, as consumed by the stable
`Array.prototype.sort`. -/
def advLe (sb : SortBy) (ord : Int) (a b : Advocate) : Prop :=
  advocateCompare sb ord a b ≤ 0

instance (sb : SortBy) (ord : Int) : DecidableRel (advLe sb ord) :=
  fun a b => inferInstanceAs (Decidable (advocateCompare sb ord a b ≤ 0))

/-- `request.search && request.search.trim()`: a present, non-blank
search term. -/
def nonBlank (s : Option String) : Bool :=
  match s with
  | none => false
  | some str => (str != "") && (jsTrim str != "")

/-- `request.specialties && request.specialties.length > 0`. -/
def hasTags (t : Option (List String)) : Bool :=
  match t with
  | none => false
  | some l => decide (0 < l.length)

/-- The retrieval strategy selection of `AdvocatesService.searchAdvocates`
(lines 80-104): tags present -> `getAdvocatesBySpecialties` (with the
trimmed-or-empty term); else term present -> repository `searchAdvocates`
with the trimmed term; else `getAllAdvocates`. -/
def fetchAdvocates (store : Store) (search : Option String)
    (specialties : Option (List String)) (limit offset : Int) :
    AdvocateSearchResult :=
  if hasTags specialties then
    AdvocateRepository.getAdvocatesBySpecialties store (specialties.getD [])
      (jsTrim (search.getD "")) limit offset
  else if nonBlank search then
    AdvocateRepository.searchAdvocates store (jsTrim (search.getD "")) limit offset
  else
    AdvocateRepository.getAllAdvocates store limit offset

/-- Transformation, optional secondary sort and response assembly: the
tail of `AdvocatesService.searchAdvocates` (lines 106-130). -/
def assembleResponse (req : SearchAdvocatesDto) (page limit : Int)
    (result : AdvocateSearchResult) : SearchAdvocatesResponse :=
  let transformed := result.advocates.map transformAdvocate
  let sorted :=
    match req.sortBy with
    | some sb =>
      if sb = SortBy.relevance then transformed
      else List.insertionSort (advLe sb (sortOrderFactor req.sortOrder)) transformed
    | none => transformed
  { data := sorted, pagination := calculatePagination page limit result.totalCount }

/-- `AdvocatesService.searchAdvocates`, happy path. -/
def searchAdvocates (store : Store) (req : SearchAdvocatesDto) :
    SearchAdvocatesResponse :=
  let v := validatePagination req.page req.limit
  assembleResponse req v.page v.limit
    (fetchAdvocates store req.search req.specialties v.limit v.offset)

end AdvocatesService

/-- Failure injection for the two retrieval-capability calls of one
invocation: whether the page query resp. the count query fails
(connectivity, malformed expression, ...).  The store's semantics is
otherwise unchanged. -/
structure DbOutcome where
  pageFails : Bool
  countFails : Bool

namespace AdvocateRepository

/-- `searchAdvocates` with its try/catch: any failure of either query
is caught and rethrown as the opaque repository error. -/
def searchAdvocatesE (store : Store) (oc : DbOutcome) (search : String)
    (limit offset : Int) : Except String AdvocateSearchResult :=
  if oc.pageFails then Except.error "Failed to search advocates"
  else if oc.countFails then Except.error "Failed to search advocates"
  else Except.ok (searchAdvocates store search limit offset)

/-- `getAllAdvocates` with its try/catch. -/
def getAllAdvocatesE (store : Store) (oc : DbOutcome) (limit offset : Int) :
    Except String AdvocateSearchResult :=
  if oc.pageFails then Except.error "Failed to fetch advocates"
  else if oc.countFails then Except.error "Failed to fetch advocates"
  else Except.ok (getAllAdvocates store limit offset)

/-- `getAdvocatesBySpecialties` with its try/catch. -/
def getAdvocatesBySpecialtiesE (store : Store) (oc : DbOutcome)
    (tags : List String) (search : String) (limit offset : Int) :
    Except String AdvocateSearchResult :=
  if oc.pageFails then Except.error "Failed to fetch advocates by specialties"
  else if oc.countFails then Except.error "Failed to fetch advocates by specialties"
  else Except.ok (getAdvocatesBySpecialties store tags search limit offset)

end AdvocateRepository

namespace AdvocatesService

/-- Strategy selection over the fallible repository. -/
def fetchAdvocatesE (store : Store) (oc : DbOutcome) (search : Option String)
    (specialties : Option (List String)) (limit offset : Int) :
    Except String AdvocateSearchResult :=
  if hasTags specialties then
    AdvocateRepository.getAdvocatesBySpecialtiesE store oc (specialties.getD [])
      (jsTrim (search.getD "")) limit offset
  else if nonBlank search then
    AdvocateRepository.searchAdvocatesE store oc (jsTrim (search.getD "")) limit offset
  else
    AdvocateRepository.getAllAdvocatesE store oc limit offset

/-- `AdvocatesService.searchAdvocates` with its try/catch: any error
propagating out of the repository is caught and rethrown as the single
opaque service error `Failed to search advocates`. -/
def searchAdvocatesE (store : Store) (oc : DbOutcome)
    (req : SearchAdvocatesDto) : Except String SearchAdvocatesResponse :=
  let v := validatePagination req.page req.limit
  match fetchAdvocatesE store oc req.search req.specialties v.limit v.offset with
  | Except.error _ => Except.error "Failed to search advocates"
  | Except.ok result => Except.ok (assembleResponse req v.page v.limit result)

/-- Modelled from the spec (claim C2 wording): page defaults only when
absent, limit defaults only when absent and is then clamped into
`[1, 100]`. -/
def claimValidatePagination (page limit : Option Int) : ValidPagination :=
  let p := max 1 (page.getD 1)
  let l := min 100 (max 1 (limit.getD 50))
  { page := p, limit := l, offset := (p - 1) * l }

end AdvocatesService

/-! ## Helper lemmas -/

lemma trim_reverse_eq (l : List Char) :
    ((l.dropWhile Char.isWhitespace).reverse.dropWhile Char.isWhitespace).reverse
      = List.rdropWhile Char.isWhitespace (l.dropWhile Char.isWhitespace) := rfl

lemma dropWhile_rdropWhile_dropWhile (p : α → Bool) (l : List α) :
    List.dropWhile p (List.rdropWhile p (List.dropWhile p l))
      = List.rdropWhile p (List.dropWhile p l) := by
  rcases h : List.rdropWhile p (List.dropWhile p l) with _ | ⟨a, t⟩
  · simp
  · have hpre : List.rdropWhile p (List.dropWhile p l) <+: List.dropWhile p l :=
      List.rdropWhile_prefix p (List.dropWhile p l)
    rw [h] at hpre
    obtain ⟨t2, ht2⟩ := hpre
    have hh : p a = false := by
      have h0 := List.head?_dropWhile_not p l
      rw [← ht2] at h0
      simpa using h0
    simp [hh]

lemma trimList_idem (p : α → Bool) (l : List α) :
    List.rdropWhile p (List.dropWhile p (List.rdropWhile p (List.dropWhile p l)))
      = List.rdropWhile p (List.dropWhile p l) := by
  rw [dropWhile_rdropWhile_dropWhile, List.rdropWhile_idempotent]

lemma jsTrim_idem (s : String) : jsTrim (jsTrim s) = jsTrim s := by
  unfold jsTrim
  congr 1
  dsimp only
  rw [trim_reverse_eq, trim_reverse_eq]
  exact trimList_idem Char.isWhitespace s.data

lemma paginate_sublist (limit offset : Int) (l : List α) :
    List.Sublist (paginate limit offset l) l :=
  (List.take_sublist _ _).trans (List.drop_sublist _ _)

lemma sorted_paginate {r : α → α → Prop} (limit offset : Int) {l : List α}
    (h : l.Sorted r) : (paginate limit offset l).Sorted r :=
  List.Pairwise.sublist (paginate_sublist limit offset l) h

lemma mem_of_mem_paginate {limit offset : Int} {l : List α} {x : α}
    (h : x ∈ paginate limit offset l) : x ∈ l :=
  (paginate_sublist limit offset l).subset h

lemma jsTrim_empty : jsTrim "" = "" := rfl

lemma nonBlank_false_trim {search : Option String}
    (h : AdvocatesService.nonBlank search = false) :
    jsTrim (search.getD "") = "" := by
  rcases search with _ | s
  · rfl
  · simp only [AdvocatesService.nonBlank, Bool.and_eq_false_imp, bne_eq_false_iff_eq,
      Option.getD_some] at h ⊢
    by_cases hs : s = ""
    · rw [hs]
      exact jsTrim_empty
    · have := h (by simpa using hs)
      simpa using this

lemma nonBlank_true_trim {search : Option String}
    (h : AdvocatesService.nonBlank search = true) :
    jsTrim (jsTrim (search.getD "")) ≠ "" := by
  rcases search with _ | s
  · simp [AdvocatesService.nonBlank] at h
  · simp only [AdvocatesService.nonBlank, Bool.and_eq_true, bne_iff_ne, ne_eq,
      Option.getD_some] at h ⊢
    rw [jsTrim_idem]
    exact h.2

/-- The plain-listing strategy: page window of the id-sorted table,
sorted ascending by id, drawn from the table, counted in full. -/
lemma getAllAdvocates_spec (store : Store) (limit offset : Int) :
    (AdvocateRepository.getAllAdvocates store limit offset).advocates
        = paginate limit offset (List.insertionSort idLe store.rows)
    ∧ (AdvocateRepository.getAllAdvocates store limit offset).advocates.Sorted idLe
    ∧ (∀ x ∈ (AdvocateRepository.getAllAdvocates store limit offset).advocates,
        x ∈ store.rows)
    ∧ (AdvocateRepository.getAllAdvocates store limit offset).totalCount
        = store.rows.length := by
  refine ⟨rfl, ?_, ?_, rfl⟩
  · exact sorted_paginate _ _ (List.sorted_insertionSort idLe store.rows)
  · intro x hx
    have hx2 := mem_of_mem_paginate hx
    rwa [List.mem_insertionSort] at hx2

/-- The ranked-search strategy: page window of the rank-descending
sorted match set, sorted descending by rank, drawn from the matching
rows, counted over the full match set. -/
lemma repo_searchAdvocates_spec (store : Store) (s : String) (limit offset : Int) :
    (AdvocateRepository.searchAdvocates store s limit offset).advocates
        = paginate limit offset
            (List.insertionSort (rankGe store (buildSearchQuery s))
              (store.rows.filter
                (fun r => store.matchesQuery (buildSearchQuery s) r)))
    ∧ (AdvocateRepository.searchAdvocates store s limit offset).advocates.Sorted
        (rankGe store (buildSearchQuery s))
    ∧ (∀ x ∈ (AdvocateRepository.searchAdvocates store s limit offset).advocates,
        x ∈ store.rows ∧ store.matchesQuery (buildSearchQuery s) x = true)
    ∧ (AdvocateRepository.searchAdvocates store s limit offset).totalCount
        = (store.rows.filter
            (fun r => store.matchesQuery (buildSearchQuery s) r)).length := by
  refine ⟨rfl, ?_, ?_, rfl⟩
  · exact sorted_paginate _ _
      (List.sorted_insertionSort (rankGe store (buildSearchQuery s)) _)
  · intro x hx
    have hx2 := mem_of_mem_paginate hx
    rw [List.mem_insertionSort] at hx2
    exact List.mem_filter.mp hx2

/-- The tag-only strategy (blank inner term): page window of the
id-sorted tag-filtered rows. -/
lemma bySpecialties_blank_spec (store : Store) (tags : List String) (s : String)
    (limit offset : Int) (hs : jsTrim s = "") :
    (AdvocateRepository.getAdvocatesBySpecialties store tags s limit offset).advocates
        = paginate limit offset
            (List.insertionSort idLe (store.rows.filter (tagMatch tags)))
    ∧ (AdvocateRepository.getAdvocatesBySpecialties store tags s limit offset).advocates.Sorted
        idLe
    ∧ (∀ x ∈ (AdvocateRepository.getAdvocatesBySpecialties store tags s limit offset).advocates,
        x ∈ store.rows ∧ tagMatch tags x = true)
    ∧ (AdvocateRepository.getAdvocatesBySpecialties store tags s limit offset).totalCount
        = (store.rows.filter (tagMatch tags)).length := by
  have h2 : ¬(jsTrim s ≠ "") := fun hc => hc hs
  unfold AdvocateRepository.getAdvocatesBySpecialties
  simp only [if_neg h2]
  refine ⟨rfl, ?_, ?_, rfl⟩
  · exact sorted_paginate _ _ (List.sorted_insertionSort idLe _)
  · intro x hx
    have hx2 := mem_of_mem_paginate hx
    rw [List.mem_insertionSort] at hx2
    exact List.mem_filter.mp hx2

/-- The ranked+tag strategy (non-blank inner term): page window of the
rank-descending sorted intersection of text matches and tag matches. -/
lemma bySpecialties_search_spec (store : Store) (tags : List String) (s : String)
    (limit offset : Int) (hs : jsTrim s ≠ "") :
    (AdvocateRepository.getAdvocatesBySpecialties store tags s limit offset).advocates
        = paginate limit offset
            (List.insertionSort (rankGe store (buildSearchQuery s))
              (store.rows.filter
                (fun r => store.matchesQuery (buildSearchQuery s) r && tagMatch tags r)))
    ∧ (AdvocateRepository.getAdvocatesBySpecialties store tags s limit offset).advocates.Sorted
        (rankGe store (buildSearchQuery s))
    ∧ (∀ x ∈ (AdvocateRepository.getAdvocatesBySpecialties store tags s limit offset).advocates,
        x ∈ store.rows ∧ store.matchesQuery (buildSearchQuery s) x = true
          ∧ tagMatch tags x = true)
    ∧ (AdvocateRepository.getAdvocatesBySpecialties store tags s limit offset).totalCount
        = (store.rows.filter
            (fun r => store.matchesQuery (buildSearchQuery s) r && tagMatch tags r)).length := by
  unfold AdvocateRepository.getAdvocatesBySpecialties
  simp only [if_pos hs]
  refine ⟨rfl, ?_, ?_, rfl⟩
  · exact sorted_paginate _ _
      (List.sorted_insertionSort (rankGe store (buildSearchQuery s)) _)
  · intro x hx
    have hx2 := mem_of_mem_paginate hx
    rw [List.mem_insertionSort] at hx2
    have hx3 := List.mem_filter.mp hx2
    have hx4 : store.matchesQuery (buildSearchQuery s) x = true
        ∧ tagMatch tags x = true := by
      simpa [AdvocateRepository.specSearchWherePage] using hx3.2
    exact ⟨hx3.1, hx4.1, hx4.2⟩

/-! ## Sample data for concrete witnesses -/

/-- A store with no rows and a vacuous text-match capability. -/
def emptyStore : Store :=
  { rows := [], matchesQuery := fun _ _ => false, rank := fun _ _ => 0 }

/-- A sample row tagged with the single specialty `A`. -/
def rowA : AdvocateDB :=
  { id := 1, first_name := "Jane", last_name := "Doe", city := "Phoenix",
    degree := "MD", specialties := some ["A"], years_of_experience := 5,
    phone_number := 5551234, created_at := none, rank := none }

/-- A plain-listing-shaped row with a null tag blob and no rank column. -/
def rowNull : AdvocateDB := { rowA with specialties := none }

/-- Canonical record of `rowA`. -/
def advA : Advocate := AdvocatesService.transformAdvocate rowA

/-- Same last name as `advA`, different first name. -/
def advB : Advocate := { advA with firstName := "John" }

/-- A two-row store whose text-match capability matches row id 1 for
the tsquery built from `anxi`. -/
def storeAB : Store :=
  { rows := [rowA, rowNull],
    matchesQuery := fun q r => (q == "anxi:*") && (r.id == 1),
    rank := fun _ r => r.id }

/-! ## Claims -/

/-- C2: pagination validation clamps instead of failing.  As stated the
claim is wrong in one point: the code uses JavaScript falsy defaulting
(`limit || DEFAULT_LIMIT`), so a requested limit of `0` becomes the
default `50`, not the clamped `1` demanded by "requestedLimit (or
DEFAULT_LIMIT when absent) clamped into [1, MAX_LIMIT]". -/
theorem c2_limit_zero_counterexample :
    (AdvocatesService.validatePagination none (some 0)).limit = 50
    ∧ (AdvocatesService.claimValidatePagination none (some 0)).limit = 1
    ∧ AdvocatesService.validatePagination none (some 0)
        ≠ AdvocatesService.claimValidatePagination none (some 0) := by
  decide

/-- C2 (amended): for every requested page and limit (absent, zero,
negative or over-large), validation returns
`page = max(1, requestedPage or DEFAULT_PAGE)`, `limit = requestedLimit
(or DEFAULT_LIMIT when absent **or zero**) clamped into [1, MAX_LIMIT]`,
and `offset = (page - 1) * limit`; the result always satisfies
`1 ≤ page`, `1 ≤ limit ≤ 100`, `0 ≤ offset`, and no input makes the
call fail (the function is total). -/
theorem c2_pagination_clamping (page limit : Option Int) :
    1 ≤ (AdvocatesService.validatePagination page limit).page
    ∧ 1 ≤ (AdvocatesService.validatePagination page limit).limit
    ∧ (AdvocatesService.validatePagination page limit).limit ≤ 100
    ∧ (AdvocatesService.validatePagination page limit).page = max 1 (page.getD 1)
    ∧ ((limit = none ∨ limit = some 0) →
        (AdvocatesService.validatePagination page limit).limit = 50)
    ∧ (∀ l, limit = some l → l ≠ 0 →
        (AdvocatesService.validatePagination page limit).limit = min 100 (max 1 l))
    ∧ (AdvocatesService.validatePagination page limit).offset
        = ((AdvocatesService.validatePagination page limit).page - 1)
          * (AdvocatesService.validatePagination page limit).limit
    ∧ 0 ≤ (AdvocatesService.validatePagination page limit).offset := by
  have hpage : 1 ≤ (AdvocatesService.validatePagination page limit).page := by
    rcases page with _ | p <;>
      simp [AdvocatesService.validatePagination, jsOrInt]
  have hlim1 : 1 ≤ (AdvocatesService.validatePagination page limit).limit := by
    rcases limit with _ | l <;>
      simp [AdvocatesService.validatePagination, jsOrInt]
  refine ⟨hpage, hlim1, ?_, ?_, ?_, ?_, rfl, ?_⟩
  · rcases limit with _ | l <;>
      simp [AdvocatesService.validatePagination, jsOrInt]
  · rcases page with _ | p <;>
      simp [AdvocatesService.validatePagination, jsOrInt]
    split <;> omega
  · rintro (rfl | rfl) <;> simp [AdvocatesService.validatePagination, jsOrInt]
  · rintro l rfl hl
    simp [AdvocatesService.validatePagination, jsOrInt, hl]
  · exact mul_nonneg (by omega) (by omega)

/-- C2 witness: a negative page with an over-large limit is clamped, and
a zero limit falls back to the default 50. -/
theorem c2_pagination_clamping_witness :
    (AdvocatesService.validatePagination (some (-3)) (some 200)).limit
      = min 100 (max 1 200)
    ∧ (AdvocatesService.validatePagination (some (-3)) (some 0)).limit = 50 :=
  ⟨(c2_pagination_clamping (some (-3)) (some 200)).2.2.2.2.2.1 200 rfl (by decide),
   (c2_pagination_clamping (some (-3)) (some 0)).2.2.2.2.1 (Or.inr rfl)⟩

/-- C3: the claim says the builder splits the trimmed input on
whitespace into words; the code splits on single space characters and
keeps empty fragments (`split(' ')`).  On the single-space scenario the
two agree (`"john smith"` gives `"john & smith:*"`), but on a
double-space input the code emits an empty AND operand — a malformed
tsquery that makes the whole query fail — where the claimed algorithm
produces `"john & smith:*"`. -/
theorem c3_split_divergence :
    buildSearchQuery "john smith" = "john & smith:*"
    ∧ specQueryBuilder "john smith" = "john & smith:*"
    ∧ buildSearchQuery "john  smith" = "john &  & smith:*"
    ∧ specQueryBuilder "john  smith" = "john & smith:*"
    ∧ buildSearchQuery "john  smith" ≠ specQueryBuilder "john  smith" := by
  decide

/-- C6: the response assembler echoes page, limit and totalCount
unchanged and computes `totalPages = ceil(totalCount / limit)`: the
characterizing bounds `totalCount ≤ totalPages * limit <
totalCount + limit` hold for every limit in `[1, MAX_LIMIT]` and every
total count.  It is a pure function of its inputs (determinism and
absence of side effects are inherent in the embedding). -/
theorem c6_response_assembler (page limit : Int) (totalCount : Nat)
    (h1 : 1 ≤ limit) (h2 : limit ≤ 100) :
    (AdvocatesService.calculatePagination page limit totalCount).page = page
    ∧ (AdvocatesService.calculatePagination page limit totalCount).limit = limit
    ∧ (AdvocatesService.calculatePagination page limit totalCount).totalCount = totalCount
    ∧ (totalCount : Int)
        ≤ (AdvocatesService.calculatePagination page limit totalCount).totalPages * limit
    ∧ (AdvocatesService.calculatePagination page limit totalCount).totalPages * limit
        < totalCount + limit
    ∧ (AdvocatesService.calculatePagination page limit totalCount).totalPages
        = ⌈(totalCount : ℚ) / (limit : ℚ)⌉ := by
  have hl0 : (0 : ℚ) < (limit : ℚ) := by exact_mod_cast (by omega : (0 : Int) < limit)
  have hceil1 : ((totalCount : ℚ) / (limit : ℚ))
      ≤ ((⌈(totalCount : ℚ) / (limit : ℚ)⌉ : Int) : ℚ) := Int.le_ceil _
  have h4 : (totalCount : ℚ) ≤ ((⌈(totalCount : ℚ) / (limit : ℚ)⌉ : Int) : ℚ) * (limit : ℚ) :=
    (div_le_iff₀ hl0).mp hceil1
  have hceil2 : ((⌈(totalCount : ℚ) / (limit : ℚ)⌉ : Int) : ℚ)
      < (totalCount : ℚ) / (limit : ℚ) + 1 := Int.ceil_lt_add_one _
  have h5 : (((⌈(totalCount : ℚ) / (limit : ℚ)⌉ : Int) : ℚ) - 1) * (limit : ℚ)
      < (totalCount : ℚ) := by
    have hlt : ((⌈(totalCount : ℚ) / (limit : ℚ)⌉ : Int) : ℚ) - 1
        < (totalCount : ℚ) / (limit : ℚ) := by linarith
    calc (((⌈(totalCount : ℚ) / (limit : ℚ)⌉ : Int) : ℚ) - 1) * (limit : ℚ)
        < ((totalCount : ℚ) / (limit : ℚ)) * (limit : ℚ) :=
          mul_lt_mul_of_pos_right hlt hl0
      _ = (totalCount : ℚ) := div_mul_cancel₀ _ (ne_of_gt hl0)
  have hproj : (AdvocatesService.calculatePagination page limit totalCount).totalPages
      = ⌈(totalCount : ℚ) / (limit : ℚ)⌉ := rfl
  refine ⟨rfl, rfl, rfl, ?_, ?_, rfl⟩
  · rw [hproj]
    exact_mod_cast h4
  · have h6 : ((⌈(totalCount : ℚ) / (limit : ℚ)⌉ : Int) : ℚ) * (limit : ℚ)
        < (totalCount : ℚ) + (limit : ℚ) := by nlinarith
    rw [hproj]
    exact_mod_cast h6

/-- C6 witness: totalCount = 125 with limit = 50 yields totalPages = 3,
and the inputs are echoed. -/
theorem c6_response_assembler_witness :
    (AdvocatesService.calculatePagination 1 50 125).totalCount = 125
    ∧ (AdvocatesService.calculatePagination 1 50 125).page = 1
    ∧ (AdvocatesService.calculatePagination 1 50 125).totalPages = 3 :=
  ⟨(c6_response_assembler 1 50 125 (by norm_num) (by norm_num)).2.2.1,
   (c6_response_assembler 1 50 125 (by norm_num) (by norm_num)).1,
   by
    have hproj : (AdvocatesService.calculatePagination 1 50 125).totalPages
        = ⌈(125 : ℚ) / (50 : ℚ)⌉ := by norm_num [AdvocatesService.calculatePagination]
    rw [hproj, Int.ceil_eq_iff]
    norm_num⟩

/-- C8: the result transformer is total over both row shapes: it never
reads the optional relevance-score column (rows differing only in
`rank` transform identically), and a missing/null tag blob defaults to
the empty sequence, never null (the canonical record's tag field is a
plain list). -/
theorem c8_transform_total (row : AdvocateDB) :
    (∀ r1 r2 : Option Int,
      AdvocatesService.transformAdvocate { row with rank := r1 }
        = AdvocatesService.transformAdvocate { row with rank := r2 })
    ∧ (AdvocatesService.transformAdvocate row).specialties = row.specialties.getD []
    ∧ (row.specialties = none →
        (AdvocatesService.transformAdvocate row).specialties = [])
    ∧ (AdvocatesService.transformAdvocate row).id = row.id
    ∧ (AdvocatesService.transformAdvocate row).firstName = row.first_name
    ∧ (AdvocatesService.transformAdvocate row).lastName = row.last_name
    ∧ (AdvocatesService.transformAdvocate row).yearsOfExperience
        = row.years_of_experience := by
  refine ⟨fun r1 r2 => rfl, rfl, ?_, rfl, rfl, rfl, rfl⟩
  intro h
  simp [AdvocatesService.transformAdvocate, h]

/-- C8 witness: a plain-listing-shaped row (no rank column, null tag
blob) transforms to a record with the empty tag list. -/
theorem c8_transform_total_witness :
    (AdvocatesService.transformAdvocate rowNull).specialties = [] :=
  (c8_transform_total rowNull).2.2.1 rfl

/-- C10: the name comparator consults only the last-name fields: its
value is unchanged under any change of the first names, and two records
with equal last names compare as equal (comparator value 0). -/
theorem c10_name_sort_last_name_only (ord : Int) (a b a2 b2 : Advocate)
    (ha : a.lastName = a2.lastName) (hb : b.lastName = b2.lastName) :
    AdvocatesService.advocateCompare SortBy.name ord a b
      = AdvocatesService.advocateCompare SortBy.name ord a2 b2
    ∧ (a.lastName = b.lastName →
        AdvocatesService.advocateCompare SortBy.name ord a b = 0) := by
  constructor
  · simp [AdvocatesService.advocateCompare, AdvocatesService.strCompare, ha, hb]
  · intro h
    simp [AdvocatesService.advocateCompare, AdvocatesService.strCompare, h]

/-- C10 witness: two records sharing the last name `Doe` but with
different first names compare as equal under the name sort. -/
theorem c10_name_sort_last_name_only_witness :
    AdvocatesService.advocateCompare SortBy.name 1 advA advB = 0 :=
  (c10_name_sort_last_name_only 1 advA advB advA advB rfl rfl).2 rfl

/-- C4: the tag filter is inclusive-or across the requested tags: a
record (with its tag blob present, per the Record invariant) passes the
filter if and only if its own tag set intersects the requested set, and
accordingly it is in the tag-filtered row set iff it is a row whose
tags intersect the requested set. -/
theorem c4_tag_filter_inclusive_or (store : Store) (tags : List String)
    (r : AdvocateDB) (sp : List String) (_hne : tags ≠ [])
    (hsp : r.specialties = some sp) :
    (tagMatch tags r = true ↔ ∃ t ∈ tags, t ∈ sp)
    ∧ (r ∈ store.rows →
        (r ∈ store.rows.filter (tagMatch tags) ↔ ∃ t ∈ tags, t ∈ sp)) := by
  have hiff : tagMatch tags r = true ↔ ∃ t ∈ tags, t ∈ sp := by
    simp [tagMatch, hsp, List.any_eq_true]
  refine ⟨hiff, fun hr => ?_⟩
  rw [List.mem_filter]
  constructor
  · rintro ⟨_, h⟩
    exact hiff.mp h
  · intro h
    exact ⟨hr, hiff.mpr h⟩

/-- C4 witness: a record tagged only `A` passes the filter for the
requested tag set `A, B`. -/
theorem c4_tag_filter_inclusive_or_witness :
    tagMatch ["A", "B"] rowA = true :=
  (c4_tag_filter_inclusive_or emptyStore ["A", "B"] rowA ["A"] (by decide) rfl).1.mpr
    ⟨"A", by decide, by decide⟩

/-- C5: the secondary sort is page-local: for every requested sort the
output page is a permutation of the page the retrieval strategy
fetched (same records, possibly reordered), the pagination metadata is
identical to what the same query without a sort field returns, and when
the sort field is absent or `relevance` the data is left untouched. -/
theorem c5_secondary_sort_page_local (store : Store) (req : SearchAdvocatesDto) :
    (AdvocatesService.searchAdvocates store req).pagination
      = (AdvocatesService.searchAdvocates store { req with sortBy := none }).pagination
    ∧ (AdvocatesService.searchAdvocates store req).data.Perm
        (AdvocatesService.searchAdvocates store { req with sortBy := none }).data
    ∧ ((req.sortBy = none ∨ req.sortBy = some SortBy.relevance) →
        (AdvocatesService.searchAdvocates store req).data
          = (AdvocatesService.searchAdvocates store { req with sortBy := none }).data) := by
  obtain ⟨s, sp, pg, lm, sb0, so⟩ := req
  rcases sb0 with _ | sb
  · exact ⟨rfl, List.Perm.refl _, fun _ => rfl⟩
  · by_cases hrel : sb = SortBy.relevance
    · subst hrel
      refine ⟨rfl, ?_, fun _ => ?_⟩ <;>
        simp [AdvocatesService.searchAdvocates, AdvocatesService.assembleResponse]
    · refine ⟨rfl, ?_, ?_⟩
      · simp only [AdvocatesService.searchAdvocates, AdvocatesService.assembleResponse,
          if_neg hrel]
        exact List.perm_insertionSort _ _
      · rintro (h | h) <;> simp_all

/-- C5 witness: with sort field `relevance` the data page equals the
unsorted one. -/
theorem c5_secondary_sort_page_local_witness :
    (AdvocatesService.searchAdvocates emptyStore
        { search := none, specialties := none, page := none, limit := none,
          sortBy := some SortBy.relevance, sortOrder := some SortOrder.desc }).data
      = (AdvocatesService.searchAdvocates emptyStore
          { search := none, specialties := none, page := none, limit := none,
            sortBy := none, sortOrder := some SortOrder.desc }).data :=
  (c5_secondary_sort_page_local emptyStore
    { search := none, specialties := none, page := none, limit := none,
      sortBy := some SortBy.relevance, sortOrder := some SortOrder.desc }).2.2
    (Or.inr rfl)

/-- C7: for every strategy the count query's WHERE predicate is
pointwise identical to the page query's WHERE predicate (the source
builds the two SQL texts independently), and consequently each
repository call's totalCount is the number of rows satisfying exactly
the filter used for its returned page. -/
theorem c7_count_matches_page_predicate (store : Store) (q search : String)
    (tags : List String) (limit offset : Int) :
    (∀ r, AdvocateRepository.searchWhereCount store q r
        = AdvocateRepository.searchWherePage store q r)
    ∧ (∀ r, AdvocateRepository.specSearchWhereCount store q tags r
        = AdvocateRepository.specSearchWherePage store q tags r)
    ∧ (∀ r, AdvocateRepository.specOnlyWhereCount tags r
        = AdvocateRepository.specOnlyWherePage tags r)
    ∧ (AdvocateRepository.searchAdvocates store search limit offset).totalCount
        = (store.rows.filter
            (AdvocateRepository.searchWherePage store (buildSearchQuery search))).length
    ∧ (AdvocateRepository.getAllAdvocates store limit offset).totalCount
        = store.rows.length
    ∧ (AdvocateRepository.getAdvocatesBySpecialties store tags search limit offset).totalCount
        = (store.rows.filter (fun r =>
            if jsTrim search ≠ "" then
              AdvocateRepository.specSearchWherePage store (buildSearchQuery search) tags r
            else AdvocateRepository.specOnlyWherePage tags r)).length := by
  refine ⟨fun r => rfl, fun r => rfl, fun r => rfl, rfl, rfl, ?_⟩
  by_cases h : jsTrim search = ""
  · have h2 : ¬(jsTrim search ≠ "") := fun hc => hc h
    unfold AdvocateRepository.getAdvocatesBySpecialties
    simp only [if_neg h2]
    rfl
  · unfold AdvocateRepository.getAdvocatesBySpecialties
    simp only [if_pos h]
    rfl

/-- C1: for every SearchQuery exactly one of four mutually exclusive
retrieval strategies runs, selected by the presence of a non-blank
search term and a non-empty tag set: plain listing ordered by ascending
id when both are absent; ranked search ordered by descending relevance
when only the term is present; tag-filtered listing ordered by
ascending id when only tags are present; and the intersection of
ranked-search matches and tag membership, ordered by descending
relevance, when both are present.  Each case states the returned page
(the window of the sorted filtered rows), its sortedness, the
membership characterization of its rows, and the full-set count. -/
theorem c1_four_strategies (store : Store) (search : Option String)
    (specialties : Option (List String)) (limit offset : Int) :
    (AdvocatesService.hasTags specialties = false →
      AdvocatesService.nonBlank search = false →
      (AdvocatesService.fetchAdvocates store search specialties limit offset).advocates
          = paginate limit offset (List.insertionSort idLe store.rows)
        ∧ (AdvocatesService.fetchAdvocates store search specialties limit
            offset).advocates.Sorted idLe
        ∧ (∀ x ∈ (AdvocatesService.fetchAdvocates store search specialties limit
            offset).advocates, x ∈ store.rows)
        ∧ (AdvocatesService.fetchAdvocates store search specialties limit
            offset).totalCount = store.rows.length)
    ∧ (AdvocatesService.hasTags specialties = false →
        AdvocatesService.nonBlank search = true →
        (AdvocatesService.fetchAdvocates store search specialties limit offset).advocates
            = paginate limit offset
                (List.insertionSort
                  (rankGe store (buildSearchQuery (jsTrim (search.getD ""))))
                  (store.rows.filter (fun r =>
                    store.matchesQuery (buildSearchQuery (jsTrim (search.getD ""))) r)))
          ∧ (AdvocatesService.fetchAdvocates store search specialties limit
              offset).advocates.Sorted
                (rankGe store (buildSearchQuery (jsTrim (search.getD ""))))
          ∧ (∀ x ∈ (AdvocatesService.fetchAdvocates store search specialties limit
              offset).advocates, x ∈ store.rows
                ∧ store.matchesQuery (buildSearchQuery (jsTrim (search.getD ""))) x = true)
          ∧ (AdvocatesService.fetchAdvocates store search specialties limit
              offset).totalCount
                = (store.rows.filter (fun r =>
                    store.matchesQuery (buildSearchQuery (jsTrim (search.getD ""))) r)).length)
    ∧ (AdvocatesService.hasTags specialties = true →
        AdvocatesService.nonBlank search = false →
        (AdvocatesService.fetchAdvocates store search specialties limit offset).advocates
            = paginate limit offset
                (List.insertionSort idLe
                  (store.rows.filter (tagMatch (specialties.getD []))))
          ∧ (AdvocatesService.fetchAdvocates store search specialties limit
              offset).advocates.Sorted idLe
          ∧ (∀ x ∈ (AdvocatesService.fetchAdvocates store search specialties limit
              offset).advocates, x ∈ store.rows
                ∧ tagMatch (specialties.getD []) x = true)
          ∧ (AdvocatesService.fetchAdvocates store search specialties limit
              offset).totalCount
                = (store.rows.filter (tagMatch (specialties.getD []))).length)
    ∧ (AdvocatesService.hasTags specialties = true →
        AdvocatesService.nonBlank search = true →
        (AdvocatesService.fetchAdvocates store search specialties limit offset).advocates
            = paginate limit offset
                (List.insertionSort
                  (rankGe store (buildSearchQuery (jsTrim (search.getD ""))))
                  (store.rows.filter (fun r =>
                    store.matchesQuery (buildSearchQuery (jsTrim (search.getD ""))) r
                      && tagMatch (specialties.getD []) r)))
          ∧ (AdvocatesService.fetchAdvocates store search specialties limit
              offset).advocates.Sorted
                (rankGe store (buildSearchQuery (jsTrim (search.getD ""))))
          ∧ (∀ x ∈ (AdvocatesService.fetchAdvocates store search specialties limit
              offset).advocates, x ∈ store.rows
                ∧ store.matchesQuery (buildSearchQuery (jsTrim (search.getD ""))) x = true
                ∧ tagMatch (specialties.getD []) x = true)
          ∧ (AdvocatesService.fetchAdvocates store search specialties limit
              offset).totalCount
                = (store.rows.filter (fun r =>
                    store.matchesQuery (buildSearchQuery (jsTrim (search.getD ""))) r
                      && tagMatch (specialties.getD []) r)).length) := by
  refine ⟨?_, ?_, ?_, ?_⟩
  · intro ht hs
    have hfetch : AdvocatesService.fetchAdvocates store search specialties limit offset
        = AdvocateRepository.getAllAdvocates store limit offset := by
      unfold AdvocatesService.fetchAdvocates
      simp [ht, hs]
    rw [hfetch]
    exact getAllAdvocates_spec store limit offset
  · intro ht hs
    have hfetch : AdvocatesService.fetchAdvocates store search specialties limit offset
        = AdvocateRepository.searchAdvocates store (jsTrim (search.getD ""))
            limit offset := by
      unfold AdvocatesService.fetchAdvocates
      simp [ht, hs]
    rw [hfetch]
    exact repo_searchAdvocates_spec store (jsTrim (search.getD "")) limit offset
  · intro ht hs
    have hfetch : AdvocatesService.fetchAdvocates store search specialties limit offset
        = AdvocateRepository.getAdvocatesBySpecialties store (specialties.getD [])
            (jsTrim (search.getD "")) limit offset := by
      unfold AdvocatesService.fetchAdvocates
      simp [ht]
    rw [hfetch]
    exact bySpecialties_blank_spec store (specialties.getD []) (jsTrim (search.getD ""))
      limit offset (by rw [jsTrim_idem]; exact nonBlank_false_trim hs)
  · intro ht hs
    have hfetch : AdvocatesService.fetchAdvocates store search specialties limit offset
        = AdvocateRepository.getAdvocatesBySpecialties store (specialties.getD [])
            (jsTrim (search.getD "")) limit offset := by
      unfold AdvocatesService.fetchAdvocates
      simp [ht]
    rw [hfetch]
    exact bySpecialties_search_spec store (specialties.getD []) (jsTrim (search.getD ""))
      limit offset (nonBlank_true_trim hs)

/-- C1 witness: with term `anxi` and tags `A, B` present, the combined
strategy runs on the two-row sample store and counts exactly the one
row that both matches the text query and carries one of the tags. -/
theorem c1_four_strategies_witness :
    (AdvocatesService.fetchAdvocates storeAB (some "anxi") (some ["A", "B"])
      10 0).totalCount = 1 :=
  (((c1_four_strategies storeAB (some "anxi") (some ["A", "B"]) 10 0).2.2.2
      (by decide) (by decide)).2.2.2).trans (by decide)

lemma fetchAdvocatesE_fails (store : Store) (oc : DbOutcome)
    (search : Option String) (specialties : Option (List String))
    (limit offset : Int) (h : oc.pageFails = true ∨ oc.countFails = true) :
    ∃ m, AdvocatesService.fetchAdvocatesE store oc search specialties limit offset
      = Except.error m := by
  obtain ⟨pf, cf⟩ := oc
  unfold AdvocatesService.fetchAdvocatesE AdvocateRepository.getAdvocatesBySpecialtiesE
    AdvocateRepository.searchAdvocatesE AdvocateRepository.getAllAdvocatesE
  rcases h with h | h <;> simp only at h <;> subst h
  · cases ht : AdvocatesService.hasTags specialties <;>
      cases hs : AdvocatesService.nonBlank search <;> simp [ht, hs]
  · cases pf <;> cases ht : AdvocatesService.hasTags specialties <;>
      cases hs : AdvocatesService.nonBlank search <;> simp [ht, hs]

lemma fetchAdvocatesE_ok (store : Store) (oc : DbOutcome)
    (search : Option String) (specialties : Option (List String))
    (limit offset : Int) (hp : oc.pageFails = false) (hc : oc.countFails = false) :
    AdvocatesService.fetchAdvocatesE store oc search specialties limit offset
      = Except.ok (AdvocatesService.fetchAdvocates store search specialties
          limit offset) := by
  unfold AdvocatesService.fetchAdvocatesE AdvocatesService.fetchAdvocates
    AdvocateRepository.getAdvocatesBySpecialtiesE
    AdvocateRepository.searchAdvocatesE AdvocateRepository.getAllAdvocatesE
  cases ht : AdvocatesService.hasTags specialties <;>
    cases hs : AdvocatesService.nonBlank search <;> simp [ht, hs, hp, hc]

/-- C9: fail-closed error semantics: whenever the page query or the
count query of the chosen strategy fails, the whole search call is a
single opaque `Failed to search advocates` error and nothing else is
returned; with no failure the call succeeds, and in particular an empty
matching set (here: an empty store, which every strategy maps to zero
matches) is a success with empty data and totalCount 0, never an
error. -/
theorem c9_fail_closed (store : Store) (oc : DbOutcome) (req : SearchAdvocatesDto) :
    ((oc.pageFails = true ∨ oc.countFails = true) →
      AdvocatesService.searchAdvocatesE store oc req
        = Except.error "Failed to search advocates")
    ∧ (oc.pageFails = false → oc.countFails = false →
        AdvocatesService.searchAdvocatesE store oc req
          = Except.ok (AdvocatesService.searchAdvocates store req))
    ∧ (oc.pageFails = false → oc.countFails = false → store.rows = [] →
        AdvocatesService.searchAdvocatesE store oc req
            = Except.ok (AdvocatesService.searchAdvocates store req)
          ∧ (AdvocatesService.searchAdvocates store req).data = []
          ∧ (AdvocatesService.searchAdvocates store req).pagination.totalCount = 0) := by
  have hok : oc.pageFails = false → oc.countFails = false →
      AdvocatesService.searchAdvocatesE store oc req
        = Except.ok (AdvocatesService.searchAdvocates store req) := by
    intro hp hc
    unfold AdvocatesService.searchAdvocatesE AdvocatesService.searchAdvocates
    dsimp only
    rw [fetchAdvocatesE_ok store oc req.search req.specialties _ _ hp hc]
  refine ⟨?_, hok, ?_⟩
  · intro h
    obtain ⟨m, hm⟩ := fetchAdvocatesE_fails store oc req.search req.specialties
      (AdvocatesService.validatePagination req.page req.limit).limit
      (AdvocatesService.validatePagination req.page req.limit).offset h
    unfold AdvocatesService.searchAdvocatesE
    dsimp only
    rw [hm]
  · intro hp hc hrows
    refine ⟨hok hp hc, ?_, ?_⟩
    · have hfetch : (AdvocatesService.fetchAdvocates store req.search req.specialties
          (AdvocatesService.validatePagination req.page req.limit).limit
          (AdvocatesService.validatePagination req.page req.limit).offset).advocates
            = [] := by
        unfold AdvocatesService.fetchAdvocates AdvocateRepository.getAdvocatesBySpecialties
          AdvocateRepository.searchAdvocates AdvocateRepository.getAllAdvocates
        simp [hrows, paginate]
      unfold AdvocatesService.searchAdvocates AdvocatesService.assembleResponse
      rcases req with ⟨s, sp, pg, lm, sb0, so⟩
      simp only [hfetch, List.map_nil]
      rcases sb0 with _ | sb
      · rfl
      · by_cases hrel : sb = SortBy.relevance <;> simp [hrel]
    · have hcount : (AdvocatesService.fetchAdvocates store req.search req.specialties
          (AdvocatesService.validatePagination req.page req.limit).limit
          (AdvocatesService.validatePagination req.page req.limit).offset).totalCount
            = 0 := by
        unfold AdvocatesService.fetchAdvocates AdvocateRepository.getAdvocatesBySpecialties
          AdvocateRepository.searchAdvocates AdvocateRepository.getAllAdvocates
        simp [hrows]
      unfold AdvocatesService.searchAdvocates AdvocatesService.assembleResponse
      simp only [hcount]
      rfl

/-- C9 witness: on the empty store a failing count query yields the
opaque error, and the no-failure call is a success with empty data and
zero total count. -/
theorem c9_fail_closed_witness :
    AdvocatesService.searchAdvocatesE emptyStore
        { pageFails := false, countFails := true }
        { search := none, specialties := none, page := none, limit := none,
          sortBy := none, sortOrder := none }
      = Except.error "Failed to search advocates"
    ∧ (AdvocatesService.searchAdvocates emptyStore
        { search := none, specialties := none, page := none, limit := none,
          sortBy := none, sortOrder := none }).data = []
    ∧ (AdvocatesService.searchAdvocates emptyStore
        { search := none, specialties := none, page := none, limit := none,
          sortBy := none, sortOrder := none }).pagination.totalCount = 0 :=
  ⟨(c9_fail_closed emptyStore { pageFails := false, countFails := true }
      { search := none, specialties := none, page := none, limit := none,
        sortBy := none, sortOrder := none }).1 (Or.inr rfl),
   ((c9_fail_closed emptyStore { pageFails := false, countFails := false }
      { search := none, specialties := none, page := none, limit := none,
        sortBy := none, sortOrder := none }).2.2 rfl rfl rfl).2.1,
   ((c9_fail_closed emptyStore { pageFails := false, countFails := false }
      { search := none, specialties := none, page := none, limit := none,
        sortBy := none, sortOrder := none }).2.2 rfl rfl rfl).2.2⟩

end Solace

